import Mathlib

/- Verification of the nbxsync reconciliation engine.

   Shallow embedding of the sync core:
   - SafeSync:  nbxsync/utils/sync/safe_sync.py  (duplicate-safe executor)
   - SyncBase:  nbxsync/utils/sync/syncbase.py   (generic per-entity sync)
   - HostIface: nbxsync/utils/sync/hostinterfacesync.py (interface self-heal)
   - HostSync:  nbxsync/utils/sync/hostsync.py   (host payload assembly)
   - Pipeline:  nbxsync/worker/syncall.py        (stage orchestration)

   Remote (Zabbix API) behaviour is passed in as explicit oracle data;
   Django ORM query results are fields of the embedded state. -/

set_option autoImplicit false
set_option linter.unusedVariables false
set_option maxRecDepth 8192

/-- Source-of-truth policy values (nbxsync.choices.syncsot.SyncSOT). -/
inductive SyncSOT
  | netbox
  | zabbix
  deriving DecidableEq

namespace SafeSync

/-- A record returned by a Zabbix get call: the value stored under the
    adapter id key (absent when the key is missing) plus an opaque payload
    standing for the rest of the dict. -/
structure ZRec where
  idVal : Option Nat
  payload : Nat
  deriving DecidableEq

/-- The distinct hard-failure exits of safe_sync._sync_existing. -/
inductive SEErr
  | serverMissing
  | notRetrieved
  | missingKey
  deriving DecidableEq

/-- Observable outcome of one _sync_existing run: the raised error (if any),
    the ids passed to the update path, the value returned, the id written back
    onto the local record, and the message recorded by update_sync_info on the
    failure path. -/
structure SEOutcome where
  err : Option SEErr
  updates : List Nat
  returned : Option ZRec
  localId : Option Nat
  syncFailMsg : Option String
  deriving DecidableEq

/-- Embedding of safe_sync._sync_existing (safe_sync.py lines 21-47).
    serverFound models whether ZabbixServer.objects.get(pk=...) succeeds;
    found models the find_by_name() result list.  sync_to_zabbix(object_id)
    sets the local id, saves, and performs one update against object_id. -/
def sync_existing (serverFound : Bool) (found : List ZRec) : SEOutcome :=
  if serverFound = false then
    { err := some SEErr.serverMissing, updates := [], returned := none,
      localId := none, syncFailMsg := some "Zabbix Server not found." }
  else
    match found with
    | [] =>
      { err := some SEErr.notRetrieved, updates := [], returned := none,
        localId := none, syncFailMsg := none }
    | current :: _ =>
      match current.idVal with
      | none =>
        { err := some SEErr.missingKey, updates := [], returned := none,
          localId := none, syncFailMsg := none }
      | some oid =>
        { err := none, updates := [oid], returned := some current,
          localId := some oid, syncFailMsg := none }

end SafeSync

namespace SyncBase

/-- Local-side state seen by ZabbixSyncBase.sync: the stored remote id and the
    resolved source-of-truth policy (never None after __init__). -/
structure SBState where
  objId : Option Nat
  sot : SyncSOT
  deriving DecidableEq

/-- Remote-facing actions a sync run can perform. -/
inductive SBEvent
  | pull (payload : Nat)
  | push (objectId : Nat)
  | create
  deriving DecidableEq

/-- A record found remotely, as consumed by handle_found: the value under the
    id key and an opaque payload for the remaining fields. -/
structure FoundData where
  idVal : Nat
  payload : Nat
  deriving DecidableEq

/-- Embedding of ZabbixSyncBase.sync (syncbase.py lines 40-50).
    findByIdResult is the find_by_id() oracle; remote ids are positive, so the
    stored id is truthy exactly when it is present. -/
def sync (st : SBState) (findByIdResult : List Nat) : List SBEvent :=
  match st.objId with
  | some oid =>
    if findByIdResult ≠ [] then [SBEvent.push oid]
    else [SBEvent.create]
  | none => [SBEvent.create]

/-- Embedding of ZabbixSyncBase.handle_found (syncbase.py lines 124-132):
    pull on a ZABBIX source of truth, push on NETBOX. -/
def handle_found (st : SBState) (data : FoundData) : List SBEvent :=
  if st.sot = SyncSOT.zabbix then [SBEvent.pull data.payload]
  else if st.sot = SyncSOT.netbox then [SBEvent.push data.idVal]
  else []

end SyncBase

namespace HostIface

/-- Local interface record state touched by HostInterfaceSync.sync: the stored
    remote id and the arguments of the last update_sync_info call
    (success flag, message when one was passed). -/
structure IfaceState where
  interfaceid : Option Nat
  lastSyncInfo : Option (Bool × Option String)
  deriving DecidableEq

/-- Remote oracle for one HostInterfaceSync.sync run: the result of the
    hostinterface.get existence probe, of hostinterface.create (the
    interfaceids list), and of hostinterface.update. -/
structure IfaceApi where
  getResult : Except String (List Nat)
  createResult : Except String (List Nat)
  updateResult : Except String Unit

/-- Observable outcome of HostInterfaceSync.sync: final local state, number of
    create and update calls issued, and the exception propagated (if any). -/
structure IfaceOutcome where
  state : IfaceState
  creates : Nat
  updates : Nat
  raised : Option String
  deriving DecidableEq

/-- Python substring test used on the update error message. -/
def containsSwitchMsg (msg : String) : Bool :=
  decide (("Cannot switch host for interface").data <:+: msg.data)

/-- Embedding of HostInterfaceSync.sync (hostinterfacesync.py lines 123-179).
    Step 1: a stored id is probed remotely; an empty result or any API error
    clears it.  Step 2: without an id, create once; a create failure is
    recorded on the record and swallowed.  Step 3: otherwise update; a
    cannot-switch-host error clears the id and recreates; any other update
    error is recorded and re-raised. -/
def sync (api : IfaceApi) (st0 : IfaceState) : IfaceOutcome :=
  let st1 :=
    match st0.interfaceid with
    | some _ =>
      match api.getResult with
      | Except.ok found => if found.isEmpty then { st0 with interfaceid := none } else st0
      | Except.error _ => { st0 with interfaceid := none }
    | none => st0
  match st1.interfaceid with
  | none =>
    match api.createResult with
    | Except.error e =>
      { state := { st1 with lastSyncInfo := some (false, some e) },
        creates := 1, updates := 0, raised := none }
    | Except.ok ids =>
      match ids.head? with
      | none =>
        { state := { st1 with lastSyncInfo := some (false, some "list index out of range") },
          creates := 1, updates := 0, raised := none }
      | some newId =>
        { state := { st1 with interfaceid := some newId, lastSyncInfo := some (true, none) },
          creates := 1, updates := 0, raised := none }
  | some _ =>
    match api.updateResult with
    | Except.ok _ =>
      { state := { st1 with lastSyncInfo := some (true, none) },
        creates := 0, updates := 1, raised := none }
    | Except.error msg =>
      if containsSwitchMsg msg then
        match api.createResult with
        | Except.error e2 =>
          { state := { st1 with interfaceid := none, lastSyncInfo := some (false, some e2) },
            creates := 1, updates := 1, raised := none }
        | Except.ok ids =>
          match ids.head? with
          | none =>
            let st2 := { st1 with interfaceid := none }
            { state := { st2 with lastSyncInfo := some (false, some "list index out of range") },
              creates := 1, updates := 1, raised := none }
          | some newId =>
            let st2 := { st1 with interfaceid := some newId }
            { state := { st2 with lastSyncInfo := some (true, some "Recreated interface") },
              creates := 1, updates := 1, raised := none }
      else
        { state := { st1 with lastSyncInfo := some (false, some msg) },
          creates := 0, updates := 1, raised := some msg }

end HostIface

namespace Pipeline

/-- One ZabbixServerAssignment as the pipeline sees it: its primary key and
    the hostid it carries. -/
structure Assignment where
  pk : Nat
  hostid : Option Nat
  deriving DecidableEq

/-- One hostgroup assignment collected from an AttributeBundle: its primary
    key and an opaque payload distinguishing distinct rows. -/
structure HostgroupItem where
  pk : Nat
  payload : Nat
  deriving DecidableEq

/-- The slices of one get_assigned_zabbixobjects bundle the stage collectors
    read: hostgroup assignments and host interface primary keys. -/
structure Bundle where
  hostgroups : List HostgroupItem
  hostinterfaces : List Nat
  deriving DecidableEq

/-- One attempted unit of work in the pipeline trace. -/
inductive Event
  | syncHost (pk : Nat) (skipTemplates : Bool)
  | syncProxyGroup (pk : Nat)
  | syncProxy (pk : Nat)
  | syncHostGroup (pk : Nat)
  | syncHostInterface (pk : Nat) (hostid : Option Nat)
  | templatesRefresh
  deriving DecidableEq

/-- One step of the _collect_host_groups loop: the accumulator is the
    unique_ids set (as a list) together with the collected hostgroups; an
    already seen primary key is skipped. -/
def dedupStep (acc : List Nat × List HostgroupItem) (hg : HostgroupItem) :
    List Nat × List HostgroupItem :=
  if hg.pk ∈ acc.1 then acc else (acc.1 ++ [hg.pk], acc.2 ++ [hg])

/-- Embedding of _collect_host_groups (syncall.py lines 73-83): hostgroups of
    every bundle in order, keeping the first occurrence of each primary key. -/
def collect_host_groups (data : List (Assignment × Bundle)) : List HostgroupItem :=
  (data.foldl (fun acc ab => ab.2.hostgroups.foldl dedupStep acc) ([], [])).2

/-- Embedding of _collect_host_interfaces (syncall.py lines 86-92): every
    interface of every bundle, paired with its assignment hostid. -/
def collect_host_interfaces (data : List (Assignment × Bundle)) : List (Nat × Option Nat) :=
  data.flatMap (fun ab => ab.2.hostinterfaces.map (fun hi => (hi, ab.1.hostid)))

/-- One stage loop over already-built events: every item is attempted; a
    failing item (fails oracle) is logged and skipped, a succeeding one
    increments the progress counter.  The accumulator is (trace, completed). -/
def run_stage (fails : Event → Bool) (acc : List Event × Nat) (evs : List Event) :
    List Event × Nat :=
  evs.foldl
    (fun acc ev => if fails ev then (acc.1 ++ [ev], acc.2) else (acc.1 ++ [ev], acc.2 + 1))
    acc

/-- Embedding of syncall (syncall.py lines 182-221): hosts phase 1
    (skip_templates=true), proxy groups, proxies, deduplicated host groups,
    host interfaces with their hostid context, hosts phase 2
    (skip_templates=false), then the best-effort template catalog refresh
    (attempted inside try/except, not counted as progress). -/
def syncall (data : List (Assignment × Bundle)) (proxy_groups proxies : List Nat)
    (fails : Event → Bool) : List Event × Nat :=
  let acc0 : List Event × Nat := ([], 0)
  let acc1 := run_stage fails acc0 (data.map (fun ab => Event.syncHost ab.1.pk true))
  let acc2 := run_stage fails acc1 (proxy_groups.map Event.syncProxyGroup)
  let acc3 := run_stage fails acc2 (proxies.map Event.syncProxy)
  let acc4 := run_stage fails acc3
    ((collect_host_groups data).map (fun hg => Event.syncHostGroup hg.pk))
  let acc5 := run_stage fails acc4
    ((collect_host_interfaces data).map (fun p => Event.syncHostInterface p.1 p.2))
  let acc6 := run_stage fails acc5 (data.map (fun ab => Event.syncHost ab.1.pk false))
  (acc6.1 ++ [Event.templatesRefresh], acc6.2)

end Pipeline

namespace HostSync

/-- Zabbix host interface types (ZabbixHostInterfaceTypeChoices). -/
inductive IfaceKind
  | agent
  | snmp
  | ipmi
  | jmx
  deriving DecidableEq

/-- Template interface requirements (HostInterfaceRequirementChoices):
    the NONE marker, the ANY marker, or a concrete interface type. -/
inductive Req
  | rnone
  | rany
  | rkind (k : IfaceKind)
  deriving DecidableEq

/-- Host status values (ZabbixHostStatus) relevant to payload assembly. -/
inductive ZHStatus
  | enabled
  | disabled
  | enabledNoAlerting
  deriving DecidableEq

/-- SNMPv3 security levels (ZabbixInterfaceSNMPV3SecurityLevelChoices). -/
inductive SecLevel
  | noauthnopriv
  | authnopriv
  | authpriv
  deriving DecidableEq

/-- One ZabbixHostInterface row, restricted to the fields HostSync reads. -/
structure HostInterface where
  itype : IfaceKind
  snmp_version : Nat
  snmp_community : String
  snmpv3_security_level : SecLevel
  snmpv3_authentication_passphrase : String
  snmpv3_privacy_passphrase : String
  tls_connect : Nat
  tls_accept : List Nat
  tls_issuer : String
  tls_subject : String
  tls_psk_identity : String
  tls_psk : String
  ipmi_authtype : Nat
  ipmi_password : String
  ipmi_privilege : Nat
  ipmi_username : String
  deriving DecidableEq

/-- One template assignment: the remote template id and the declared
    interface_requirements list (None in Python becomes none here). -/
structure TemplateAssignment where
  templateid : Nat
  interface_requirements : Option (List Req)
  deriving DecidableEq

/-- One tag assignment: the tag name and the value its render() produced. -/
structure TagAssignment where
  tag : String
  renderValue : String
  deriving DecidableEq

/-- One macro assignment as read by get_defined_macros. -/
structure MacroAssignment where
  macroName : String
  mtype : Nat
  description : String
  value : String
  deriving DecidableEq

/-- One entry of the macros payload (and of the remote selectMacros result). -/
structure MacroEntry where
  macroName : String
  mtype : Nat
  description : String
  value : String
  deriving DecidableEq

/-- One hostgroup assignment row as filtered by get_groups: the owning
    Zabbix server id and the stored remote group id (possibly absent). -/
structure HostgroupAssignment where
  serverId : Nat
  groupid : Option Nat
  deriving DecidableEq

/-- Host inventory record: the mode flag and render_all_fields() output,
    each field a (key, value, present) triple. -/
structure Inventory where
  inventory_mode : Option Nat
  fields : List (String × String × Bool)
  deriving DecidableEq

/-- SNMP macro names from plugin settings. -/
structure SnmpConfig where
  snmp_community : String
  snmp_authpass : String
  snmp_privpass : String
  deriving DecidableEq

/-- Plugin settings consumed by HostSync, with Python dict lookups modelled
    as association lists. -/
structure PluginSettings where
  snmpconfig : SnmpConfig
  no_alerting_tag : String
  no_alerting_tag_value : String
  hosttemplate_sot : Option SyncSOT
  hostmacro_sot : Option SyncSOT
  statusmapping : List (String × List (String × ZHStatus))
  deriving DecidableEq

/-- Local state of one HostSync run: the ZabbixServerAssignment fields, the
    all_objects bundle collections, and the plugin settings. -/
structure State where
  hostid : Option Nat
  zabbixserverId : Nat
  assignedName : String
  assignedStatus : String
  assignedModelName : String
  cfDescription : Except String String
  proxy : Option Nat
  proxygroup : Option Nat
  hostgroupAssignments : List HostgroupAssignment
  hostinterfaces : List HostInterface
  templates : List TemplateAssignment
  tags : List TagAssignment
  macros : List MacroAssignment
  hostinventory : Option Inventory
  settings : PluginSettings

/-- A tag dict as it arrives at merge_zabbix_and_netbox_tags: optional
    tag / name / value keys. -/
structure RawTag where
  tag : Option String
  name : Option String
  value : Option String
  deriving DecidableEq

/-- Remote oracle for one HostSync payload build: current template ids of the
    host (template.get), the tag fetch used by the update merge (host.get with
    selectTags, which may fail), and the current remote macros (host.get with
    selectMacros). -/
structure Api where
  curTemplates : List Nat
  curTags : Except Unit (List RawTag)
  curMacros : List MacroEntry

/-- A normalised tag entry of the merged payload. -/
structure NTag where
  tag : String
  value : String
  deriving DecidableEq

/-- Python truthiness filter on an optional string. -/
def truthy : Option String → Option String
  | some s => if s = "" then none else some s
  | none => none

/-- The norm helper of merge_zabbix_and_netbox_tags: key is tag or name
    (Python or), a falsy key drops the entry, value defaults to "". -/
def norm (t : RawTag) : Option NTag :=
  let key :=
    match truthy t.tag with
    | some s => some s
    | none => t.name
  match truthy key with
  | none => none
  | some k => some { tag := k, value := t.value.getD "" }

/-- Python dict insertion: overwrite in place when the key exists, else
    append at the end. -/
def upsert (m : List NTag) (nt : NTag) : List NTag :=
  if m.any (fun e => e.tag == nt.tag) then
    m.map (fun e => if e.tag = nt.tag then nt else e)
  else m ++ [nt]

/-- One loop step of merge_zabbix_and_netbox_tags. -/
def mergeStep (m : List NTag) (t : RawTag) : List NTag :=
  match norm t with
  | some nt => upsert m nt
  | none => m

/-- Embedding of HostSync.merge_zabbix_and_netbox_tags (hostsync.py lines
    411-429): fold the remote tags into an empty dict, then the local tags
    (local wins on key collision), and return the values. -/
def merge_zabbix_and_netbox_tags (zabbix_tags netbox_tags : List RawTag) : List NTag :=
  let m := zabbix_tags.foldl mergeStep []
  netbox_tags.foldl mergeStep m

/-- Lookup of the merged value stored under a tag name. -/
def lookupTag (m : List NTag) (k : String) : Option String :=
  (m.find? (fun e => e.tag == k)).map (fun e => e.value)

/-- View of a payload tag as the dict that reaches the merge. -/
def ntagToRaw (nt : NTag) : RawTag :=
  { tag := some nt.tag, name := none, value := some nt.value }

/-- Python dict get on an association list. -/
def assocFind {α : Type} (l : List (String × α)) (k : String) : Option α :=
  (l.find? (fun p => p.1 == k)).map (fun p => p.2)

/-- status_mapping.get(status) after getattr(statusmapping, model_name, \x7b\x7d). -/
def statusLookup (s : State) : Option ZHStatus :=
  let mapping := (assocFind s.settings.statusmapping s.assignedModelName).getD []
  assocFind mapping s.assignedStatus

/-- The character class kept by sanitize_string, from the regex
    pattern negating 0-9, a-z, A-Z, underscore, dot, space and hyphen. -/
def sanitize_char_ok (c : Char) : Bool :=
  decide (('0' ≤ c ∧ c ≤ '9') ∨ ('a' ≤ c ∧ c ≤ 'z') ∨ ('A' ≤ c ∧ c ≤ 'Z') ∨
    c = '_' ∨ c = '.' ∨ c = ' ' ∨ c = '-')

/-- Embedding of HostSync.sanitize_string (hostsync.py lines 499-500):
    re.sub with a single-character class replaces character by character. -/
def sanitize_string (s : String) : String :=
  String.mk (s.data.map (fun c => if sanitize_char_ok c then c else '_'))

/-- TLS keys contributed by an agent interface. -/
structure TLSAttrs where
  tls_connect : Nat
  tls_accept : Nat
  tls_issuer : String
  tls_subject : String
  tls_psk_identity : String
  tls_psk : String
  deriving DecidableEq

/-- IPMI keys contributed by an IPMI interface. -/
structure IPMIAttrs where
  ipmi_authtype : Nat
  ipmi_password : String
  ipmi_privilege : Nat
  ipmi_username : String
  deriving DecidableEq

/-- Embedding of HostSync.get_hostinterface_attributes (hostsync.py lines
    344-362): later interfaces of the same type overwrite earlier ones. -/
def get_hostinterface_attributes (ifaces : List HostInterface) :
    Option TLSAttrs × Option IPMIAttrs :=
  ifaces.foldl
    (fun acc hi =>
      let acc1 :=
        if hi.itype = IfaceKind.agent then
          (some { tls_connect := hi.tls_connect,
                  tls_accept := hi.tls_accept.foldl (fun a x => a ||| x) 0,
                  tls_issuer := hi.tls_issuer, tls_subject := hi.tls_subject,
                  tls_psk_identity := hi.tls_psk_identity, tls_psk := hi.tls_psk }, acc.2)
        else acc
      if hi.itype = IfaceKind.ipmi then
        (acc1.1, some { ipmi_authtype := hi.ipmi_authtype, ipmi_password := hi.ipmi_password,
                        ipmi_privilege := hi.ipmi_privilege, ipmi_username := hi.ipmi_username })
      else acc1)
    (none, none)

/-- Embedding of HostSync.get_hostinterface_types (hostsync.py line 364). -/
def get_hostinterface_types (ifaces : List HostInterface) : List IfaceKind :=
  (ifaces.map (fun hi => hi.itype)).dedup

/-- The concrete-type part of a requirement set (set minus NONE and ANY). -/
def clean_requirements (req : List Req) : List IfaceKind :=
  req.filterMap (fun r => match r with | Req.rkind k => some k | _ => none)

/-- The inclusion test of HostSync.get_template_attributes (hostsync.py
    lines 371-382), one template at a time. -/
def includeTemplate (req : List Req) (types : List IfaceKind) : Bool :=
  let req_clean := clean_requirements req
  if Req.rnone ∈ req ∧ req_clean = [] ∧ Req.rany ∉ req then true
  else if Req.rany ∈ req ∧ types = [] then false
  else if req_clean ≠ [] ∧ ¬ (∀ k ∈ req_clean, k ∈ types) then false
  else true

/-- Embedding of HostSync.get_template_attributes (hostsync.py lines
    367-386): the templateids of the included templates. -/
def get_template_attributes (s : State) : List Nat :=
  let types := get_hostinterface_types s.hostinterfaces
  (s.templates.filter
    (fun t => includeTemplate (t.interface_requirements.getD []) types)).map
    (fun t => t.templateid)

/-- Embedding of HostSync.get_defined_macros (hostsync.py lines 254-285):
    local macro assignments, plus the remote macros not locally intended when
    the hostmacro source of truth is ZABBIX. -/
def get_defined_macros (s : State) (api : Api) : List MacroEntry :=
  let result := s.macros.map (fun m =>
    { macroName := m.macroName, mtype := m.mtype,
      description := m.description, value := m.value })
  match s.settings.hostmacro_sot with
  | some SyncSOT.zabbix =>
    let intended := result.map (fun m => m.macroName)
    result ++ api.curMacros.filter (fun m => decide (m.macroName ∉ intended))
  | _ => result

/-- Embedding of HostSync.get_snmp_macros (hostsync.py lines 287-331). -/
def get_snmp_macros (s : State) : List MacroEntry :=
  let conf := s.settings.snmpconfig
  s.hostinterfaces.flatMap (fun hi =>
    if hi.itype ≠ IfaceKind.snmp then []
    else
      (if hi.snmp_version = 1 ∨ hi.snmp_version = 2 then
        [{ macroName := conf.snmp_community, mtype := 1,
           description := "SNMPv2 Community", value := hi.snmp_community }]
      else [])
      ++
      (if hi.snmp_version = 3 ∧
          (hi.snmpv3_security_level = SecLevel.authnopriv ∨
           hi.snmpv3_security_level = SecLevel.authpriv) then
        [{ macroName := conf.snmp_authpass, mtype := 1,
           description := "SNMPv3 Auth Pass", value := hi.snmpv3_authentication_passphrase }]
      else [])
      ++
      (if hi.snmp_version = 3 ∧ hi.snmpv3_security_level = SecLevel.authpriv then
        [{ macroName := conf.snmp_privpass, mtype := 1,
           description := "SNMPv3 Priv Pass", value := hi.snmpv3_privacy_passphrase }]
      else []))

/-- Embedding of HostSync.get_macros (hostsync.py lines 333-342): drop the
    SNMP community entries when a defined macro already provides them. -/
def get_macros (s : State) (api : Api) : List MacroEntry :=
  let all_macros := get_defined_macros s api
  let snmp_macros := get_snmp_macros s
  let comm := s.settings.snmpconfig.snmp_community
  let snmp_macros2 :=
    if all_macros.any (fun m => m.macroName == comm) then
      snmp_macros.filter (fun x => x.macroName != comm)
    else snmp_macros
  all_macros ++ snmp_macros2

/-- Embedding of HostSync.get_tag_attributes (hostsync.py lines 431-448):
    rendered local tags plus the synthetic no-alerting tag. -/
def get_tag_attributes (s : State) : List NTag :=
  let zstat := statusLookup s
  let res := s.tags.map (fun t => { tag := t.tag, value := t.renderValue })
  if zstat = some ZHStatus.enabledNoAlerting then
    res ++ [{ tag := "$\x7b" ++ s.settings.no_alerting_tag ++ "\x7d",
              value := s.settings.no_alerting_tag_value }]
  else res

/-- Embedding of HostSync.get_groups (hostsync.py lines 450-471): groupids of
    the hostgroup assignments owned by the same Zabbix server. -/
def get_groups (s : State) : List (Option Nat) :=
  s.hostgroupAssignments.filterMap (fun a =>
    if a.serverId = s.zabbixserverId then some a.groupid else none)

/-- Embedding of HostSync.get_proxy_or_proxygroup (hostsync.py lines 244-252):
    (monitored_by, proxyid key, proxy_groupid key). -/
def get_proxy_or_proxygroup (s : State) : Nat × Option Nat × Option Nat :=
  let mon := if s.proxygroup.isSome then 2 else if s.proxy.isSome then 1 else 0
  (mon, s.proxy, s.proxygroup)

/-- Embedding of HostSync.get_hostinventory (hostsync.py lines 473-485):
    (inventory_mode, inventory key if any rendered field is present and
    non-empty). -/
def get_hostinventory (s : State) : Nat × Option (List (String × String)) :=
  match s.hostinventory with
  | none => (0, none)
  | some hi =>
    let mode := hi.inventory_mode.getD 0
    let inv := hi.fields.filterMap (fun f =>
      if f.2.2 ∧ f.2.1 ≠ "" then some (f.1, f.2.1) else none)
    (mode, if inv.isEmpty then none else some inv)

/-- The description passed to Zabbix: the custom-field text for devices, ""
    on a formatting failure or for non-devices (hostsync.py lines 105-112). -/
def zbx_description (s : State) : String :=
  if s.assignedModelName = "device" then
    match s.cfDescription with
    | Except.ok d => d
    | Except.error _ => ""
  else ""

/-- One host.create / host.update payload.  Keys that the Python dict only
    sometimes contains are Option fields (none = key absent). -/
structure Params where
  host : String
  name : String
  description : String
  groups : List (Option Nat)
  status : Nat
  monitored_by : Nat
  proxyid : Option Nat
  proxy_groupid : Option Nat
  tls : Option TLSAttrs
  ipmi : Option IPMIAttrs
  tags : List NTag
  macros : List MacroEntry
  inventory_mode : Nat
  inventory : Option (List (String × String))
  templates : Option (List Nat)
  templates_clear : Option (List Nat)
  hostid : Option Nat
  deriving DecidableEq

/-- Embedding of HostSync.get_create_params (hostsync.py lines 90-125). -/
def get_create_params (s : State) (api : Api) : Params :=
  let zstat := statusLookup s
  let host_status := if zstat = some ZHStatus.disabled then 1 else 0
  let nb_name := s.assignedName
  let host_value := String.mk ((sanitize_string nb_name).data.take 64)
  let pxy := get_proxy_or_proxygroup s
  let hia := get_hostinterface_attributes s.hostinterfaces
  let inv := get_hostinventory s
  { host := host_value, name := nb_name, description := zbx_description s,
    groups := get_groups s, status := host_status,
    monitored_by := pxy.1, proxyid := pxy.2.1, proxy_groupid := pxy.2.2,
    tls := hia.1, ipmi := hia.2,
    tags := get_tag_attributes s,
    macros := get_macros s api,
    inventory_mode := inv.1, inventory := inv.2,
    templates := none, templates_clear := none, hostid := none }

/-- Embedding of HostSync.get_templates_clear_attributes (hostsync.py lines
    388-409), made pure: input is the intended templates list, output is the
    (possibly extended) templates list together with the returned dict,
    where some none is the empty dict, some (some l) carries a
    templates_clear key, and none is the Python None fall-through. -/
def get_templates_clear_attributes (s : State) (api : Api)
    (intendedTemplates : List Nat) : List Nat × Option (Option (List Nat)) :=
  match s.hostid with
  | none => (intendedTemplates, some none)
  | some _ =>
    let cur_ids := api.curTemplates.dedup
    let to_clear := cur_ids.filter (fun x => decide (x ∉ intendedTemplates))
    match s.settings.hosttemplate_sot with
    | some SyncSOT.netbox => (intendedTemplates, some (some to_clear))
    | some SyncSOT.zabbix => (intendedTemplates ++ to_clear, some none)
    | none => (intendedTemplates, none)

/-- Embedding of HostSync.get_update_params (hostsync.py lines 128-165):
    create params, the template keys (phase 2 only), the hostid, and the tag
    merge against the currently-remote tags (empty baseline on fetch
    failure).  A none result models the TypeError raised when
    get_templates_clear_attributes returns Python None. -/
def get_update_params (s : State) (api : Api) (skip_templates : Bool) :
    Option Params :=
  let base := get_create_params s api
  let tplStep : Option (Option (List Nat) × Option (List Nat)) :=
    if skip_templates then
      some (none, none)
    else
      let tpls := get_template_attributes s
      match get_templates_clear_attributes s api tpls with
      | (tpls2, some clearOpt) => some (some tpls2, clearOpt)
      | (_, none) => none
  match tplStep with
  | none => none
  | some (tfield, cfield) =>
    let params := { base with templates := tfield, templates_clear := cfield, hostid := s.hostid }
    let zbx_tags :=
      match api.curTags with
      | Except.ok l => l
      | Except.error _ => []
    some { params with tags := merge_zabbix_and_netbox_tags zbx_tags (params.tags.map ntagToRaw) }

/-- The template inclusion rule exactly as the claim words it (for comparison
    with includeTemplate): include iff the clean requirement set is empty, or
    ANY is required and the interface-type set is non-empty, or the clean
    requirement set is a subset of the interface-type set. -/
def specIncludeTemplate (req : List Req) (types : List IfaceKind) : Bool :=
  decide (clean_requirements req = []) ||
  (decide (Req.rany ∈ req) && !types.isEmpty) ||
  decide (∀ k ∈ clean_requirements req, k ∈ types)

/-- The host field exactly as the claim words it: every character outside
    digits, ASCII letters, underscore, dot, space and hyphen replaced by an
    underscore, then truncated to at most 64 characters. -/
def specHostField (n : String) : String :=
  String.mk ((n.data.map (fun c =>
    if ('0' ≤ c ∧ c ≤ '9') ∨ ('a' ≤ c ∧ c ≤ 'z') ∨ ('A' ≤ c ∧ c ≤ 'Z') ∨
        c = '_' ∨ c = '.' ∨ c = ' ' ∨ c = '-' then c else '_')).take 64)

/-- The value a list of raw tags associates with a key, Python-dict style:
    the value of the last normalisable entry carrying that key. -/
def lastVal (ts : List RawTag) (k : String) : Option String :=
  (((ts.filterMap norm).filter (fun e => e.tag == k)).getLast?).map (fun e => e.value)

/-- The tag key of a raw tag after normalisation, if any. -/
def normKey (t : RawTag) : Option String :=
  (norm t).map (fun e => e.tag)

/-- Baseline plugin settings used by concrete evaluations. -/
def settings0 : PluginSettings :=
  { snmpconfig :=
      { snmp_community := "SNMP_COMMUNITY", snmp_authpass := "SNMPV3_AUTHPASS",
        snmp_privpass := "SNMPV3_PRIVPASS" },
    no_alerting_tag := "NO_ALERTING", no_alerting_tag_value := "1",
    hosttemplate_sot := some SyncSOT.netbox, hostmacro_sot := none, statusmapping := [] }

/-- Baseline host state used by concrete evaluations. -/
def state0 : State :=
  { hostid := none, zabbixserverId := 1, assignedName := "host-1",
    assignedStatus := "active", assignedModelName := "device",
    cfDescription := Except.ok "", proxy := none, proxygroup := none,
    hostgroupAssignments := [], hostinterfaces := [], templates := [],
    tags := [], macros := [], hostinventory := none, settings := settings0 }

/-- Baseline remote oracle used by concrete evaluations. -/
def api0 : Api := { curTemplates := [], curTags := Except.ok [], curMacros := [] }

/-- A host with one template requiring ANY interface and no interfaces. -/
def c2state : State :=
  { state0 with templates := [{ templateid := 7, interface_requirements := some [Req.rany] }] }

/-- A host with a stored id, one requirement-free template, NETBOX template
    source of truth. -/
def c5state : State :=
  { state0 with hostid := some 10, templates := [{ templateid := 1, interface_requirements := none }] }

/-- Remote oracle reporting templates 1 and 2 currently assigned. -/
def c5api : Api := { curTemplates := [1, 2], curTags := Except.ok [], curMacros := [] }

/-- A host with a stored id whose template source of truth resolves to
    neither NETBOX nor ZABBIX. -/
def c10state : State :=
  { state0 with hostid := some 10, settings := { settings0 with hosttemplate_sot := none } }

/-- The payload get_update_params produces for state0 / api0 in phase 1. -/
def c9params : Params :=
  { host := "host-1", name := "host-1", description := "", groups := [], status := 0,
    monitored_by := 0, proxyid := none, proxy_groupid := none, tls := none, ipmi := none,
    tags := [], macros := [], inventory_mode := 0, inventory := none,
    templates := none, templates_clear := none, hostid := none }

end HostSync

-- THEOREMS

/-- C1 counterexample: when the natural-key lookup returns two matches, the
    executor does not raise: it performs an update against the first match
    identifier, contradicting the claim that zero or multiple matches is a
    hard failure without any update attempt. -/
theorem c1_counterexample :
    ([{ idVal := some 3, payload := 0 }, { idVal := some 4, payload := 1 }] :
        List SafeSync.ZRec).length = 2 ∧
    ¬ ((SafeSync.sync_existing true
          [{ idVal := some 3, payload := 0 }, { idVal := some 4, payload := 1 }]).err.isSome = true ∧
       (SafeSync.sync_existing true
          [{ idVal := some 3, payload := 0 }, { idVal := some 4, payload := 1 }]).updates = []) := by
  decide

/-- C1 (amended): on an already-exists recovery the executor resolves the
    Target and looks the resource up by natural key; a missing Target or zero
    matches raises a hard failure without any update; on one or more matches
    whose first match carries the id key, it performs exactly one update
    against the first match identifier and returns the first match. -/
theorem c1_duplicate_recovery (serverFound : Bool) (found : List SafeSync.ZRec) :
    (serverFound = false →
      (SafeSync.sync_existing serverFound found).err = some SafeSync.SEErr.serverMissing ∧
      (SafeSync.sync_existing serverFound found).updates = []) ∧
    (serverFound = true → found = [] →
      (SafeSync.sync_existing serverFound found).err = some SafeSync.SEErr.notRetrieved ∧
      (SafeSync.sync_existing serverFound found).updates = []) ∧
    (∀ r rest oid, serverFound = true → found = r :: rest → r.idVal = some oid →
      SafeSync.sync_existing serverFound found =
        { err := none, updates := [oid], returned := some r,
          localId := some oid, syncFailMsg := none }) := by
  refine ⟨?_, ?_, ?_⟩
  · intro h
    subst h
    simp [SafeSync.sync_existing]
  · intro hs hf
    subst hs
    subst hf
    simp [SafeSync.sync_existing]
  · intro r rest oid hs hf hid
    subst hs
    subst hf
    simp [SafeSync.sync_existing, hid]

/-- C1 witness: one match with id 3 leads to one update against 3 and the
    match returned. -/
theorem c1_witness :
    SafeSync.sync_existing true [{ idVal := some 3, payload := 0 }] =
      { err := none, updates := [3], returned := some { idVal := some 3, payload := 0 },
        localId := some 3, syncFailMsg := none } :=
  (c1_duplicate_recovery true [{ idVal := some 3, payload := 0 }]).2.2
    { idVal := some 3, payload := 0 } [] 3 rfl rfl rfl

/-- C3 counterexample: with the source of truth set to ZABBIX (remote), a set
    identifier and a successful lookup by id, sync pushes an update and never
    pulls, contradicting the claim that a REMOTE policy pulls remote state
    down and that only a LOCAL policy pushes. -/
theorem c3_counterexample :
    SyncBase.sync { objId := some 5, sot := SyncSOT.zabbix } [5] =
      [SyncBase.SBEvent.push 5] ∧
    (∀ p, SyncBase.SBEvent.pull p ∉
      SyncBase.sync { objId := some 5, sot := SyncSOT.zabbix } [5]) := by
  constructor
  · rfl
  · intro p h
    simp [SyncBase.sync] at h

/-- C3 (amended): when the local identifier is set and the remote lookup by id
    finds the resource, ZabbixSyncBase.sync always pushes the local state as an
    update, whatever the source-of-truth policy; the per-policy dispatch (pull
    on ZABBIX, push on NETBOX) is implemented in handle_found, which sync does
    not invoke. -/
theorem c3_sync_always_pushes (st : SyncBase.SBState) (found : List Nat) :
    (∀ oid, st.objId = some oid → found ≠ [] →
      SyncBase.sync st found = [SyncBase.SBEvent.push oid]) ∧
    (∀ d, SyncBase.handle_found st d =
      if st.sot = SyncSOT.zabbix then [SyncBase.SBEvent.pull d.payload]
      else [SyncBase.SBEvent.push d.idVal]) := by
  constructor
  · intro oid h hne
    simp [SyncBase.sync, h, hne]
  · intro d
    cases hs : st.sot <;> simp [SyncBase.handle_found, hs]

/-- C3 witness: id 5 set, lookup succeeds, policy ZABBIX, yet the outcome is a
    push. -/
theorem c3_witness :
    SyncBase.sync { objId := some 5, sot := SyncSOT.zabbix } [5] =
      [SyncBase.SBEvent.push 5] :=
  (c3_sync_always_pushes { objId := some 5, sot := SyncSOT.zabbix } [5]).1 5 rfl (by decide)

/-- C6: when the stored interface identifier is reported gone by the remote
    platform (empty lookup result or lookup error), sync performs exactly one
    creation and no update, never raises, persists a returned identifier onto
    the record, and on a creation failure leaves the identifier cleared with
    the failure recorded. -/
theorem c6_interface_self_heal (api : HostIface.IfaceApi) (st : HostIface.IfaceState)
    (i : Nat) (hid : st.interfaceid = some i)
    (hgone : api.getResult = Except.ok [] ∨ ∃ e, api.getResult = Except.error e) :
    (HostIface.sync api st).creates = 1 ∧
    (HostIface.sync api st).updates = 0 ∧
    (HostIface.sync api st).raised = none ∧
    (∀ ids n, api.createResult = Except.ok ids → ids.head? = some n →
      (HostIface.sync api st).state.interfaceid = some n) ∧
    (∀ e, api.createResult = Except.error e →
      (HostIface.sync api st).state.interfaceid = none ∧
      (HostIface.sync api st).state.lastSyncInfo = some (false, some e)) := by
  have hred : HostIface.sync api st =
      (match api.createResult with
      | Except.error e =>
        { state := { st with interfaceid := none, lastSyncInfo := some (false, some e) },
          creates := 1, updates := 0, raised := none }
      | Except.ok ids =>
        match ids.head? with
        | none =>
          { state := { st with interfaceid := none, lastSyncInfo := some (false, some "list index out of range") },
            creates := 1, updates := 0, raised := none }
        | some newId =>
          { state := { st with interfaceid := some newId, lastSyncInfo := some (true, none) },
            creates := 1, updates := 0, raised := none }) := by
    rcases hgone with hg | ⟨e0, hg⟩ <;> simp [HostIface.sync, hid, hg]
  rw [hred]
  cases hc : api.createResult with
  | error e => simp
  | ok ids =>
    cases hh : ids.head? with
    | none =>
      simp [hh]
      intro ids2 n h
      subst h
      simp [hh]
    | some newId =>
      simp [hh]
      intro ids2 n h hn
      subst h
      rw [hh] at hn
      cases hn
      rfl

/-- C6 witness: id 3 stored, lookup comes back empty, creation returns 7: one
    creation, no raise, identifier 7 persisted. -/
theorem c6_witness :
    (HostIface.sync
      { getResult := Except.ok [], createResult := Except.ok [7], updateResult := Except.ok () }
      { interfaceid := some 3, lastSyncInfo := none }).creates = 1 ∧
    (HostIface.sync
      { getResult := Except.ok [], createResult := Except.ok [7], updateResult := Except.ok () }
      { interfaceid := some 3, lastSyncInfo := none }).raised = none ∧
    (HostIface.sync
      { getResult := Except.ok [], createResult := Except.ok [7], updateResult := Except.ok () }
      { interfaceid := some 3, lastSyncInfo := none }).state.interfaceid = some 7 := by
  have h := c6_interface_self_heal
    { getResult := Except.ok [], createResult := Except.ok [7], updateResult := Except.ok () }
    { interfaceid := some 3, lastSyncInfo := none } 3 rfl (Or.inl rfl)
  exact ⟨h.1, h.2.2.1, h.2.2.2.1 [7] 7 rfl rfl⟩

/-- C7 counterexample: a failing interface update both raises the error and
    mutates the local record (the failure is written into the sync status),
    contradicting the claim that on the error path no local field is
    mutated. -/
theorem c7_counterexample :
    (HostIface.sync
      { getResult := Except.ok [5], createResult := Except.ok [9],
        updateResult := Except.error "update failed" }
      { interfaceid := some 5, lastSyncInfo := none }).raised = some "update failed" ∧
    ¬ ((HostIface.sync
        { getResult := Except.ok [5], createResult := Except.ok [9],
          updateResult := Except.error "update failed" }
        { interfaceid := some 5, lastSyncInfo := none }).state =
      { interfaceid := some 5, lastSyncInfo := none }) := by
  decide

/-- C7 (amended): single-entity sync is not atomic on the error path: when an
    interface update fails with a non-switch error, the failure message is
    recorded in the local sync status and the exception is re-raised; the
    stored identifier is preserved and no other outcome is produced. -/
theorem c7_error_path_mutation (api : HostIface.IfaceApi) (st : HostIface.IfaceState)
    (i : Nat) (found : List Nat) (msg : String)
    (hid : st.interfaceid = some i)
    (hget : api.getResult = Except.ok found) (hne : found ≠ [])
    (hupd : api.updateResult = Except.error msg)
    (hsw : HostIface.containsSwitchMsg msg = false) :
    HostIface.sync api st =
      { state := { st with lastSyncInfo := some (false, some msg) },
        creates := 0, updates := 1, raised := some msg } := by
  have hie : found.isEmpty = false := by
    cases found with
    | nil => exact absurd rfl hne
    | cons a l => rfl
  simp [HostIface.sync, hid, hget, hie, hupd, hsw]

/-- The trace half of one stage loop: every item is attempted in order,
    whether or not the failure oracle makes it fail. -/
theorem run_stage_trace (fails : Pipeline.Event → Bool) (evs : List Pipeline.Event) :
    ∀ acc, (Pipeline.run_stage fails acc evs).1 = acc.1 ++ evs := by
  induction evs with
  | nil =>
    intro acc
    simp [Pipeline.run_stage]
  | cons e rest ih =>
    intro acc
    have hstep :
        Pipeline.run_stage fails acc (e :: rest) =
          Pipeline.run_stage fails
            (if fails e then (acc.1 ++ [e], acc.2) else (acc.1 ++ [e], acc.2 + 1)) rest := by
      simp [Pipeline.run_stage]
    rw [hstep]
    cases hfe : fails e <;> simp [hfe, ih, List.append_assoc]

/-- Fusing the nested _collect_host_groups loops into one fold over the
    concatenated hostgroup lists. -/
theorem collect_fold_fuse (data : List (Pipeline.Assignment × Pipeline.Bundle)) :
    ∀ acc, data.foldl (fun acc ab => ab.2.hostgroups.foldl Pipeline.dedupStep acc) acc =
      (data.flatMap (fun ab => ab.2.hostgroups)).foldl Pipeline.dedupStep acc := by
  induction data with
  | nil =>
    intro acc
    rfl
  | cons ab rest ih =>
    intro acc
    simp [List.foldl_append, ih]

/-- Invariant of the dedup fold: the id list mirrors the primary keys of the
    collected items, stays duplicate free, and collects exactly the keys of
    the input. -/
theorem dedup_fold_invariant (l : List Pipeline.HostgroupItem) :
    ∀ acc : List Nat × List Pipeline.HostgroupItem,
      acc.1 = acc.2.map (fun hg => hg.pk) → acc.1.Nodup →
      (l.foldl Pipeline.dedupStep acc).1 =
          (l.foldl Pipeline.dedupStep acc).2.map (fun hg => hg.pk) ∧
      (l.foldl Pipeline.dedupStep acc).1.Nodup ∧
      (∀ k, k ∈ (l.foldl Pipeline.dedupStep acc).1 ↔
        k ∈ acc.1 ∨ k ∈ l.map (fun hg => hg.pk)) := by
  induction l with
  | nil =>
    intro acc hkeys hnd
    simpa using ⟨hkeys, hnd⟩
  | cons hg rest ih =>
    intro acc hkeys hnd
    by_cases h : hg.pk ∈ acc.1
    · have hstep : Pipeline.dedupStep acc hg = acc := by
        simp [Pipeline.dedupStep, h]
      have := ih acc hkeys hnd
      refine ⟨?_, ?_, ?_⟩
      · simpa [List.foldl_cons, hstep] using this.1
      · simpa [List.foldl_cons, hstep] using this.2.1
      · intro k
        have hm := this.2.2 k
        simp only [List.foldl_cons, hstep]
        rw [hm]
        constructor
        · intro hk
          rcases hk with hk | hk
          · exact Or.inl hk
          · exact Or.inr (by simp [hk])
        · intro hk
          rcases hk with hk | hk
          · exact Or.inl hk
          · simp only [List.map_cons, List.mem_cons] at hk
            rcases hk with hk | hk
            · subst hk
              exact Or.inl h
            · exact Or.inr hk
    · have hstep : Pipeline.dedupStep acc hg = (acc.1 ++ [hg.pk], acc.2 ++ [hg]) := by
        simp [Pipeline.dedupStep, h]
      have hkeys2 : (acc.1 ++ [hg.pk], acc.2 ++ [hg]).1 =
          (acc.1 ++ [hg.pk], acc.2 ++ [hg]).2.map (fun hg => hg.pk) := by
        simp [hkeys]
      have hnd2 : (acc.1 ++ [hg.pk], acc.2 ++ [hg]).1.Nodup := by
        simp [List.nodup_append, hnd, h]
      have := ih (acc.1 ++ [hg.pk], acc.2 ++ [hg]) hkeys2 hnd2
      refine ⟨?_, ?_, ?_⟩
      · simpa [List.foldl_cons, hstep] using this.1
      · simpa [List.foldl_cons, hstep] using this.2.1
      · intro k
        have hm := this.2.2 k
        simp only [List.foldl_cons, hstep]
        rw [hm]
        simp [List.mem_append, or_assoc]

/-- C8: one reconciliation run attempts its stages in the fixed order (hosts
    phase 1 with skip_templates=true, proxy groups, proxies, host groups
    deduplicated by primary key, host interfaces each carrying its assignment
    hostid, hosts phase 2 with skip_templates=false, then the template catalog
    refresh), for every input and every per-item failure oracle: failing items
    are skipped, never aborting a stage or the pipeline. -/
theorem c8_pipeline_stage_order (data : List (Pipeline.Assignment × Pipeline.Bundle))
    (proxy_groups proxies : List Nat) (fails : Pipeline.Event → Bool) :
    (Pipeline.syncall data proxy_groups proxies fails).1 =
      data.map (fun ab => Pipeline.Event.syncHost ab.1.pk true)
      ++ proxy_groups.map Pipeline.Event.syncProxyGroup
      ++ proxies.map Pipeline.Event.syncProxy
      ++ (Pipeline.collect_host_groups data).map (fun hg => Pipeline.Event.syncHostGroup hg.pk)
      ++ (Pipeline.collect_host_interfaces data).map
          (fun p => Pipeline.Event.syncHostInterface p.1 p.2)
      ++ data.map (fun ab => Pipeline.Event.syncHost ab.1.pk false)
      ++ [Pipeline.Event.templatesRefresh] ∧
    ((Pipeline.collect_host_groups data).map (fun hg => hg.pk)).Nodup ∧
    (∀ k, k ∈ (Pipeline.collect_host_groups data).map (fun hg => hg.pk) ↔
      k ∈ (data.flatMap (fun ab => ab.2.hostgroups)).map (fun hg => hg.pk)) ∧
    Pipeline.collect_host_interfaces data =
      data.flatMap (fun ab => ab.2.hostinterfaces.map (fun hi => (hi, ab.1.hostid))) := by
  have hinv := dedup_fold_invariant (data.flatMap (fun ab => ab.2.hostgroups)) ([], [])
    (by simp) (by simp)
  have hcg : Pipeline.collect_host_groups data =
      ((data.flatMap (fun ab => ab.2.hostgroups)).foldl Pipeline.dedupStep ([], [])).2 := by
    unfold Pipeline.collect_host_groups
    rw [collect_fold_fuse]
  refine ⟨?_, ?_, ?_, rfl⟩
  · unfold Pipeline.syncall
    simp only [run_stage_trace]
    simp [List.append_assoc]
  · rw [hcg, ← hinv.1]
    exact hinv.2.1
  · intro k
    rw [hcg, ← hinv.1]
    have := hinv.2.2 k
    simpa using this

/-- C7 witness: update fails, the outcome raises, sync status records
    the failure, identifier 5 preserved. -/
theorem c7_witness :
    HostIface.sync
      { getResult := Except.ok [5], createResult := Except.ok [],
        updateResult := Except.error "boom" }
      { interfaceid := some 5, lastSyncInfo := none } =
      { state := { interfaceid := some 5, lastSyncInfo := some (false, some "boom") },
        creates := 0, updates := 1, raised := some "boom" } :=
  c7_error_path_mutation _ _ 5 [5] "boom" rfl rfl (by decide) rfl (by decide)


/-- A boolean equals the decision of any proposition its truth is equivalent
    to. -/
theorem bool_eq_decide {P : Prop} [Decidable P] {b : Bool} (h : b = true ↔ P) :
    b = decide P := by
  by_cases hp : P
  · rw [h.mpr hp, decide_eq_true hp]
  · cases hb : b with
    | false =>
      symm
      exact decide_eq_false hp
    | true => exact absurd (h.mp hb) hp

/-- The per-template inclusion test holds exactly when the clean requirement
    set is covered by the host interface types and ANY is not required of an
    interfaceless host. -/
theorem includeTemplate_iff (req : List HostSync.Req) (types : List HostSync.IfaceKind) :
    HostSync.includeTemplate req types = true ↔
      ((∀ k ∈ HostSync.clean_requirements req, k ∈ types) ∧
       ¬ (HostSync.Req.rany ∈ req ∧ types = [])) := by
  simp only [HostSync.includeTemplate]
  by_cases h1 : HostSync.Req.rnone ∈ req ∧ HostSync.clean_requirements req = [] ∧
      HostSync.Req.rany ∉ req
  · rw [if_pos h1]
    simp [h1.2.1, h1.2.2]
  · rw [if_neg h1]
    by_cases h2 : HostSync.Req.rany ∈ req ∧ types = []
    · rw [if_pos h2]
      simp only [Bool.false_eq_true, false_iff]
      intro hcon
      exact hcon.2 h2
    · rw [if_neg h2]
      by_cases h3 : HostSync.clean_requirements req ≠ [] ∧
          ¬ ∀ k ∈ HostSync.clean_requirements req, k ∈ types
      · rw [if_pos h3]
        simp only [Bool.false_eq_true, false_iff]
        intro hcon
        exact h3.2 hcon.1
      · rw [if_neg h3]
        constructor
        · intro _
          refine ⟨?_, h2⟩
          by_cases hc : HostSync.clean_requirements req = []
          · intro k hk
            rw [hc] at hk
            exact absurd hk (List.not_mem_nil k)
          · exact not_not.mp (fun hn => h3 ⟨hc, hn⟩)
        · intro _
          rfl

/-- C2 counterexample: a template requiring ANY on a host with no interfaces
    is excluded from the payload by the code, while the claimed inclusion rule
    (clean requirement set empty) says it must be included. -/
theorem c2_counterexample :
    HostSync.specIncludeTemplate [HostSync.Req.rany] [] = true ∧
    HostSync.get_template_attributes HostSync.c2state = [] := by
  decide

/-- C2 (amended): a template is included in the templates payload iff its
    clean requirement set is a subset of the host interface-type set and it is
    not the case that it requires ANY while the host has no interfaces;
    equivalently the payload is the filter of the template list by that
    predicate. -/
theorem c2_template_inclusion_law :
    (∀ (req : List HostSync.Req) (types : List HostSync.IfaceKind),
      HostSync.includeTemplate req types = true ↔
        ((∀ k ∈ HostSync.clean_requirements req, k ∈ types) ∧
         ¬ (HostSync.Req.rany ∈ req ∧ types = []))) ∧
    (∀ s : HostSync.State, HostSync.get_template_attributes s =
      (s.templates.filter (fun (t : HostSync.TemplateAssignment) =>
        decide ((∀ k ∈ HostSync.clean_requirements (t.interface_requirements.getD []),
            k ∈ HostSync.get_hostinterface_types s.hostinterfaces) ∧
          ¬ (HostSync.Req.rany ∈ t.interface_requirements.getD [] ∧
             HostSync.get_hostinterface_types s.hostinterfaces = [])))).map
        (fun t => t.templateid)) := by
  refine ⟨includeTemplate_iff, ?_⟩
  intro s
  simp only [HostSync.get_template_attributes]
  congr 1
  apply List.filter_congr
  intro t ht
  exact bool_eq_decide (includeTemplate_iff _ _)

/-- C10: when the host has a stored identifier and the template source of
    truth resolves to neither NETBOX nor ZABBIX, get_templates_clear_attributes
    returns Python None and the phase-2 (skip_templates=false) update payload
    build fails with a TypeError (modelled as none); in general that payload is
    defined exactly when the source of truth is NETBOX or ZABBIX or the host
    has no stored identifier. -/
theorem c10_phase2_payload_definedness :
    HostSync.get_update_params HostSync.c10state HostSync.api0 false = none ∧
    (∀ (s : HostSync.State) (api : HostSync.Api),
      (HostSync.get_update_params s api false).isSome = true ↔
        (s.settings.hosttemplate_sot = some SyncSOT.netbox ∨
         s.settings.hosttemplate_sot = some SyncSOT.zabbix ∨ s.hostid = none)) := by
  constructor
  · decide
  · intro s api
    cases hh : s.hostid with
    | none =>
      simp [HostSync.get_update_params, HostSync.get_templates_clear_attributes, hh]
    | some h =>
      cases hsot : s.settings.hosttemplate_sot with
      | none =>
        simp [HostSync.get_update_params, HostSync.get_templates_clear_attributes, hh, hsot]
      | some sot =>
        cases sot with
        | netbox =>
          simp [HostSync.get_update_params, HostSync.get_templates_clear_attributes, hh, hsot]
        | zabbix =>
          simp [HostSync.get_update_params, HostSync.get_templates_clear_attributes, hh, hsot]

/-- sanitize_string followed by the 64-character cut agrees with the claimed
    per-character description of the host field. -/
theorem sanitize_take_eq_spec (n : String) :
    String.mk ((HostSync.sanitize_string n).data.take 64) = HostSync.specHostField n := by
  unfold HostSync.sanitize_string HostSync.specHostField
  have hf : (fun c => if HostSync.sanitize_char_ok c then c else '_') =
      (fun (c : Char) =>
        if ('0' ≤ c ∧ c ≤ '9') ∨ ('a' ≤ c ∧ c ≤ 'z') ∨ ('A' ≤ c ∧ c ≤ 'Z') ∨
            c = '_' ∨ c = '.' ∨ c = ' ' ∨ c = '-' then c else '_') := by
    funext c
    by_cases hp : ('0' ≤ c ∧ c ≤ '9') ∨ ('a' ≤ c ∧ c ≤ 'z') ∨ ('A' ≤ c ∧ c ≤ 'Z') ∨
        c = '_' ∨ c = '.' ∨ c = ' ' ∨ c = '-'
    · simp [HostSync.sanitize_char_ok, hp]
    · simp [HostSync.sanitize_char_ok, hp]
  rw [hf]

/-- The host and name keys of an update payload are those of the create
    payload: the template keys, hostid and tag merge leave them untouched. -/
theorem update_params_host_name (s : HostSync.State) (api : HostSync.Api) (skip : Bool)
    (p : HostSync.Params) (hp : HostSync.get_update_params s api skip = some p) :
    p.host = (HostSync.get_create_params s api).host ∧
    p.name = (HostSync.get_create_params s api).name := by
  unfold HostSync.get_update_params at hp
  dsimp only at hp
  split at hp
  · exact absurd hp (by simp)
  · injection hp with h
    subst h
    exact ⟨rfl, rfl⟩

/-- C9: in every host create payload and every defined update payload, the
    host key is the assigned object display name with every character outside
    digits, ASCII letters, underscore, dot, space and hyphen replaced by an
    underscore and then truncated to 64 characters, while the name key carries
    the unmodified display name. -/
theorem c9_host_and_name_fields :
    (∀ (s : HostSync.State) (api : HostSync.Api),
      (HostSync.get_create_params s api).host = HostSync.specHostField s.assignedName ∧
      (HostSync.get_create_params s api).name = s.assignedName) ∧
    (∀ (s : HostSync.State) (api : HostSync.Api) (skip : Bool) (p : HostSync.Params),
      HostSync.get_update_params s api skip = some p →
      p.host = HostSync.specHostField s.assignedName ∧ p.name = s.assignedName) := by
  have hbase : ∀ (s : HostSync.State) (api : HostSync.Api),
      (HostSync.get_create_params s api).host = HostSync.specHostField s.assignedName ∧
      (HostSync.get_create_params s api).name = s.assignedName := by
    intro s api
    constructor
    · show String.mk ((HostSync.sanitize_string s.assignedName).data.take 64) = _
      exact sanitize_take_eq_spec s.assignedName
    · rfl
  refine ⟨hbase, ?_⟩
  intro s api skip p hp
  have h := update_params_host_name s api skip p hp
  rw [h.1, h.2]
  exact hbase s api

/-- C9 witness: the phase-1 update payload for the baseline host carries the
    sanitised host key and the raw name key. -/
theorem c9_witness :
    HostSync.c9params.host = HostSync.specHostField "host-1" ∧
    HostSync.c9params.name = "host-1" :=
  (c9_host_and_name_fields).2 HostSync.state0 HostSync.api0 true HostSync.c9params (by decide)

/-- C5: (phase 1) an update payload built with skip_templates=true contains
    neither a templates nor a templates_clear key; (phase 2, LOCAL/NETBOX
    templates source of truth) when remotely assigned templates exist outside
    the intended set, the payload carries both the intended templates list and
    a non-empty templates_clear list holding exactly those extras; (phase 2,
    REMOTE/ZABBIX) the payload carries the intended list with the extras
    folded in and no templates_clear key. -/
theorem c5_two_phase_template_keys :
    (∀ (s : HostSync.State) (api : HostSync.Api), ∃ p,
      HostSync.get_update_params s api true = some p ∧
      p.templates = none ∧ p.templates_clear = none) ∧
    (∀ (s : HostSync.State) (api : HostSync.Api) (h : Nat),
      s.hostid = some h → s.settings.hosttemplate_sot = some SyncSOT.netbox →
      (∃ x, x ∈ api.curTemplates ∧ x ∉ HostSync.get_template_attributes s) →
      ∃ p l, HostSync.get_update_params s api false = some p ∧
        p.templates = some (HostSync.get_template_attributes s) ∧
        p.templates_clear = some l ∧ l ≠ [] ∧
        (∀ x, x ∈ l ↔ x ∈ api.curTemplates ∧ x ∉ HostSync.get_template_attributes s)) ∧
    (∀ (s : HostSync.State) (api : HostSync.Api) (h : Nat),
      s.hostid = some h → s.settings.hosttemplate_sot = some SyncSOT.zabbix →
      ∃ p l, HostSync.get_update_params s api false = some p ∧
        p.templates = some (HostSync.get_template_attributes s ++ l) ∧
        p.templates_clear = none ∧
        (∀ x, x ∈ l ↔ x ∈ api.curTemplates ∧ x ∉ HostSync.get_template_attributes s)) := by
  refine ⟨?_, ?_, ?_⟩
  · intro s api
    exact ⟨_, rfl, rfl, rfl⟩
  · intro s api h hh hsot hex
    obtain ⟨x, hx, hnx⟩ := hex
    have hclear : HostSync.get_templates_clear_attributes s api
        (HostSync.get_template_attributes s) =
        (HostSync.get_template_attributes s,
         some (some (api.curTemplates.dedup.filter
           (fun x => decide (x ∉ HostSync.get_template_attributes s))))) := by
      simp [HostSync.get_templates_clear_attributes, hh, hsot]
    have hupd : HostSync.get_update_params s api false = some
        { HostSync.get_create_params s api with
          templates := some (HostSync.get_template_attributes s),
          templates_clear := some (api.curTemplates.dedup.filter
            (fun x => decide (x ∉ HostSync.get_template_attributes s))),
          hostid := s.hostid,
          tags := HostSync.merge_zabbix_and_netbox_tags
            (match api.curTags with | Except.ok l => l | Except.error _ => [])
            ((HostSync.get_create_params s api).tags.map HostSync.ntagToRaw) } := by
      simp only [HostSync.get_update_params, hclear]
      rfl
    refine ⟨_, _, hupd, rfl, rfl, ?_, ?_⟩
    · exact List.ne_nil_of_mem
        (List.mem_filter.mpr ⟨List.mem_dedup.mpr hx, by simpa using hnx⟩)
    · intro y
      simp [List.mem_filter, List.mem_dedup]
  · intro s api h hh hsot
    have hclear : HostSync.get_templates_clear_attributes s api
        (HostSync.get_template_attributes s) =
        (HostSync.get_template_attributes s ++ api.curTemplates.dedup.filter
           (fun x => decide (x ∉ HostSync.get_template_attributes s)),
         some none) := by
      simp [HostSync.get_templates_clear_attributes, hh, hsot]
    have hupd : HostSync.get_update_params s api false = some
        { HostSync.get_create_params s api with
          templates := some (HostSync.get_template_attributes s ++
            api.curTemplates.dedup.filter
              (fun x => decide (x ∉ HostSync.get_template_attributes s))),
          templates_clear := none,
          hostid := s.hostid,
          tags := HostSync.merge_zabbix_and_netbox_tags
            (match api.curTags with | Except.ok l => l | Except.error _ => [])
            ((HostSync.get_create_params s api).tags.map HostSync.ntagToRaw) } := by
      simp only [HostSync.get_update_params, hclear]
      rfl
    refine ⟨_, _, hupd, rfl, rfl, ?_⟩
    intro y
    simp [List.mem_filter, List.mem_dedup]

/-- C5 witness: host with stored id 10, intended templates [1], remote
    templates [1, 2], NETBOX source of truth: payload carries templates [1]
    and a non-empty templates_clear containing 2. -/
theorem c5_witness :
    ∃ p l, HostSync.get_update_params HostSync.c5state HostSync.c5api false = some p ∧
      p.templates = some [1] ∧ p.templates_clear = some l ∧ l ≠ [] ∧ 2 ∈ l := by
  obtain ⟨p, l, h1, h2, h3, h4, h5⟩ :=
    c5_two_phase_template_keys.2.1 HostSync.c5state HostSync.c5api 10 rfl rfl
      ⟨2, by decide, by decide⟩
  refine ⟨p, l, h1, ?_, h3, h4, ?_⟩
  · rw [h2]
    decide
  · exact (h5 2).mpr ⟨by decide, by decide⟩

/-- The duplicate test of upsert agrees with key membership. -/
theorem any_tag_iff (m : List HostSync.NTag) (t : String) :
    (m.any (fun e => e.tag == t) = true) ↔ t ∈ m.map (fun e => e.tag) := by
  simp [List.any_eq_true]

/-- Keys after a Python dict insertion: unchanged when the key exists,
    appended otherwise. -/
theorem upsert_map_tag (m : List HostSync.NTag) (nt : HostSync.NTag) :
    (HostSync.upsert m nt).map (fun e => e.tag) =
      if nt.tag ∈ m.map (fun e => e.tag) then m.map (fun e => e.tag)
      else m.map (fun e => e.tag) ++ [nt.tag] := by
  unfold HostSync.upsert
  by_cases h : nt.tag ∈ m.map (fun e => e.tag)
  · rw [if_pos ((any_tag_iff m nt.tag).mpr h), if_pos h, List.map_map]
    apply List.map_congr_left
    intro e he
    by_cases he2 : e.tag = nt.tag <;> simp [he2]
  · rw [if_neg (fun hc => h ((any_tag_iff m nt.tag).mp hc)), if_neg h, List.map_append]
    rfl

/-- Lookup after a Python dict insertion: the inserted value under its key,
    the old dict elsewhere. -/
theorem upsert_lookup (m : List HostSync.NTag) (nt : HostSync.NTag) (k : String) :
    HostSync.lookupTag (HostSync.upsert m nt) k =
      if k = nt.tag then some nt.value else HostSync.lookupTag m k := by
  unfold HostSync.upsert HostSync.lookupTag
  by_cases hmem : nt.tag ∈ m.map (fun e => e.tag)
  · rw [if_pos ((any_tag_iff m nt.tag).mpr hmem), List.find?_map]
    by_cases hk : k = nt.tag
    · have hpred : ((fun e => e.tag == k) ∘ fun e => if e.tag = nt.tag then nt else e) =
          (fun (e : HostSync.NTag) => e.tag == k) := by
        funext e
        by_cases he : e.tag = nt.tag <;> simp [he, hk]
      rw [hpred]
      have hsome : (m.find? (fun e => e.tag == k)).isSome := by
        rw [List.find?_isSome]
        obtain ⟨e, he, hetag⟩ := List.mem_map.mp hmem
        exact ⟨e, he, by simp [hetag, hk]⟩
      obtain ⟨e0, he0⟩ := Option.isSome_iff_exists.mp hsome
      have he0tag : e0.tag = k := by simpa using List.find?_some he0
      rw [he0, if_pos hk]
      simp [he0tag, hk]
    · have hpred : ((fun e => e.tag == k) ∘ fun e => if e.tag = nt.tag then nt else e) =
          (fun (e : HostSync.NTag) => e.tag == k) := by
        funext e
        by_cases he : e.tag = nt.tag <;> simp [he]
      rw [hpred, if_neg hk]
      cases hf : m.find? (fun e => e.tag == k) with
      | none => simp [hf]
      | some e1 =>
        have he1 : e1.tag = k := by simpa using List.find?_some hf
        have hfe : (if e1.tag = nt.tag then nt else e1) = e1 :=
          if_neg (fun hq => hk (he1.symm.trans hq))
        simp [hf, hfe]
  · rw [if_neg (fun hc => hmem ((any_tag_iff m nt.tag).mp hc)), List.find?_append]
    by_cases hk : k = nt.tag
    · have hnone : m.find? (fun e => e.tag == k) = none := by
        cases hf : m.find? (fun e => e.tag == k) with
        | none => rfl
        | some e1 =>
          have he1 : e1.tag = k := by simpa using List.find?_some hf
          exact absurd (List.mem_map.mpr
            ⟨e1, List.mem_of_find?_eq_some hf, he1.trans hk⟩) hmem
      rw [hnone, List.find?_cons_of_pos _ (by simp [hk]), if_pos hk]
      simp
    · have hone : List.find? (fun e => e.tag == k) [nt] = none := by
        rw [List.find?_cons_of_neg]
        · rfl
        · simp
          exact fun hq => hk hq.symm
      rw [hone, Option.or_none, if_neg hk]

/-- Folding tags into a dict preserves duplicate-free keys. -/
theorem merge_fold_keys_nodup (ts : List HostSync.RawTag) :
    ∀ m : List HostSync.NTag, (m.map (fun e => e.tag)).Nodup →
      ((ts.foldl HostSync.mergeStep m).map (fun e => e.tag)).Nodup := by
  induction ts with
  | nil =>
    intro m hm
    simpa using hm
  | cons t ts ih =>
    intro m hm
    rw [List.foldl_cons]
    apply ih
    unfold HostSync.mergeStep
    cases hn : HostSync.norm t with
    | none => exact hm
    | some nt =>
      rw [upsert_map_tag]
      by_cases h : nt.tag ∈ m.map (fun e => e.tag)
      · rw [if_pos h]
        exact hm
      · rw [if_neg h]
        simp [List.nodup_append, hm, h]

/-- The keys of a folded dict are the initial keys plus the keys of the
    normalisable entries folded in. -/
theorem merge_fold_keys_mem (ts : List HostSync.RawTag) :
    ∀ (m : List HostSync.NTag) (k : String),
      (k ∈ (ts.foldl HostSync.mergeStep m).map (fun e => e.tag) ↔
        k ∈ m.map (fun e => e.tag) ∨ some k ∈ ts.map HostSync.normKey) := by
  induction ts with
  | nil =>
    intro m k
    simp
  | cons t ts ih =>
    intro m k
    rw [List.foldl_cons, ih]
    cases hn : HostSync.norm t with
    | none =>
      have hstep : HostSync.mergeStep m t = m := by
        simp [HostSync.mergeStep, hn]
      have hkey : HostSync.normKey t = none := by
        simp [HostSync.normKey, hn]
      rw [hstep]
      simp [hkey]
    | some nt =>
      have hstep : HostSync.mergeStep m t = HostSync.upsert m nt := by
        simp [HostSync.mergeStep, hn]
      have hkey : HostSync.normKey t = some nt.tag := by
        simp [HostSync.normKey, hn]
      rw [hstep, upsert_map_tag]
      by_cases h : nt.tag ∈ m.map (fun e => e.tag)
      · rw [if_pos h]
        simp only [hkey, List.map_cons, List.mem_cons, Option.some.injEq]
        constructor
        · rintro (ha | hr)
          · exact Or.inl ha
          · exact Or.inr (Or.inr hr)
        · rintro (ha | hkk | hr)
          · exact Or.inl ha
          · exact Or.inl (by rw [hkk]; exact h)
          · exact Or.inr hr
      · rw [if_neg h]
        simp only [hkey, List.map_cons, List.mem_cons, Option.some.injEq,
          List.mem_append]
        constructor
        · rintro ((ha | hkk | hnil) | hr)
          · exact Or.inl ha
          · exact Or.inr (Or.inl hkk)
          · exact absurd hnil (List.not_mem_nil k)
          · exact Or.inr (Or.inr hr)
        · rintro (ha | hkk | hr)
          · exact Or.inl (Or.inl ha)
          · exact Or.inl (Or.inr (Or.inl hkk))
          · exact Or.inr hr

/-- Lookup in a folded dict: the last value folded in under the key wins,
    falling back to the initial dict. -/
theorem merge_fold_lookup (ts : List HostSync.RawTag) :
    ∀ (m : List HostSync.NTag) (k : String),
      HostSync.lookupTag (ts.foldl HostSync.mergeStep m) k =
        (match HostSync.lastVal ts k with
        | some v => some v
        | none => HostSync.lookupTag m k) := by
  induction ts with
  | nil =>
    intro m k
    simp [HostSync.lastVal]
  | cons t ts ih =>
    intro m k
    rw [List.foldl_cons, ih]
    cases hn : HostSync.norm t with
    | none =>
      have hstep : HostSync.mergeStep m t = m := by
        simp [HostSync.mergeStep, hn]
      have hlast : HostSync.lastVal (t :: ts) k = HostSync.lastVal ts k := by
        simp [HostSync.lastVal, List.filterMap_cons, hn]
      rw [hstep, hlast]
    | some nt =>
      have hstep : HostSync.mergeStep m t = HostSync.upsert m nt := by
        simp [HostSync.mergeStep, hn]
      rw [hstep, upsert_lookup]
      by_cases hk : nt.tag = k
      · have hlast : HostSync.lastVal (t :: ts) k =
            (match HostSync.lastVal ts k with
            | some v => some v
            | none => some nt.value) := by
          simp only [HostSync.lastVal, List.filterMap_cons, hn]
          rw [List.filter_cons, if_pos (by simp [hk])]
          cases hfl : ((ts.filterMap HostSync.norm).filter (fun e => e.tag == k)) with
          | nil => simp [hfl]
          | cons a l =>
            cases hgl : (a :: l).getLast? with
            | none => exact absurd (List.getLast?_eq_none_iff.mp hgl) (by simp)
            | some y => simp [hfl, List.getLast?_cons_cons, hgl]
        rw [hlast]
        cases hlv : HostSync.lastVal ts k with
        | some v => simp
        | none => simp [if_pos hk.symm]
      · have hlast : HostSync.lastVal (t :: ts) k = HostSync.lastVal ts k := by
          simp only [HostSync.lastVal, List.filterMap_cons, hn]
          rw [List.filter_cons, if_neg (by simp [hk])]
        rw [hlast]
        cases hlv : HostSync.lastVal ts k with
        | some v => simp
        | none =>
          simp [hlv]
          intro hkk
          exact absurd hkk.symm hk

/-- An entry carrying a non-empty tag name normalises to that name with the
    value defaulted to "". -/
theorem norm_of_tag (t : HostSync.RawTag) (s : String)
    (ht : t.tag = some s) (hs : s ≠ "") :
    HostSync.norm t = some { tag := s, value := t.value.getD "" } := by
  simp [HostSync.norm, HostSync.truthy, ht, hs]

/-- Under non-empty tag names the normalised key is the raw tag key. -/
theorem normKey_of_tag (t : HostSync.RawTag) (s : String)
    (ht : t.tag = some s) (hs : s ≠ "") : HostSync.normKey t = t.tag := by
  simp [HostSync.normKey, norm_of_tag t s ht hs, ht]

/-- Under non-empty tag names, filtering the normalised entries by key is
    filtering the raw entries by key and then normalising. -/
theorem filterMap_norm_filter (L : List HostSync.RawTag) (n : String)
    (hL : ∀ t ∈ L, ∃ s, t.tag = some s ∧ s ≠ "") :
    (L.filterMap HostSync.norm).filter (fun e => e.tag == n) =
      (L.filter (fun t => t.tag == some n)).map
        (fun t => { tag := n, value := t.value.getD "" }) := by
  induction L with
  | nil => rfl
  | cons t ts ih =>
    obtain ⟨s, hts, hs⟩ := hL t (by simp)
    have hn := norm_of_tag t s hts hs
    have ihr := ih (fun u hu => hL u (List.mem_cons_of_mem _ hu))
    rw [List.filterMap_cons_some hn, List.filter_cons, List.filter_cons]
    by_cases hsn : s = n
    · subst hsn
      rw [if_pos (by simp), if_pos (by simp [hts])]
      simp [ihr]
    · rw [if_neg (by simp [hsn]), if_neg (by simp [hts, hsn])]
      exact ihr

/-- C4: merging remote tags R with local tags L, all entries carrying
    non-empty tag names, yields exactly one entry per distinct name occurring
    in R or L, and for every name present in both lists the merged value is
    the L value of that name (the last L entry with that name, Python-dict
    style): local wins on collision. -/
theorem c4_tag_merge_law (R L : List HostSync.RawTag)
    (hR : ∀ t ∈ R, ∃ s, t.tag = some s ∧ s ≠ "")
    (hL : ∀ t ∈ L, ∃ s, t.tag = some s ∧ s ≠ "") :
    ((HostSync.merge_zabbix_and_netbox_tags R L).map (fun e => e.tag)).Nodup ∧
    (∀ n, n ∈ (HostSync.merge_zabbix_and_netbox_tags R L).map (fun e => e.tag) ↔
      (some n ∈ R.map (fun t => t.tag) ∨ some n ∈ L.map (fun t => t.tag))) ∧
    (∀ n, some n ∈ R.map (fun t => t.tag) → some n ∈ L.map (fun t => t.tag) →
      HostSync.lookupTag (HostSync.merge_zabbix_and_netbox_tags R L) n =
        ((L.filter (fun t => t.tag == some n)).getLast?).map
          (fun t => t.value.getD "")) := by
  have hdef : HostSync.merge_zabbix_and_netbox_tags R L =
      L.foldl HostSync.mergeStep (R.foldl HostSync.mergeStep []) := rfl
  have hRkeys : R.map HostSync.normKey = R.map (fun t => t.tag) :=
    List.map_congr_left (fun t ht => by
      obtain ⟨s, h1, h2⟩ := hR t ht
      exact normKey_of_tag t s h1 h2)
  have hLkeys : L.map HostSync.normKey = L.map (fun t => t.tag) :=
    List.map_congr_left (fun t ht => by
      obtain ⟨s, h1, h2⟩ := hL t ht
      exact normKey_of_tag t s h1 h2)
  refine ⟨?_, ?_, ?_⟩
  · rw [hdef]
    exact merge_fold_keys_nodup L _ (merge_fold_keys_nodup R [] (by simp))
  · intro n
    rw [hdef, merge_fold_keys_mem, merge_fold_keys_mem, hRkeys, hLkeys]
    simp only [List.map_nil, List.not_mem_nil, false_or]
  · intro n hnR hnL
    have hcomm := filterMap_norm_filter L n hL
    have hlastv : HostSync.lastVal L n =
        ((L.filter (fun t => t.tag == some n)).getLast?).map
          (fun t => t.value.getD "") := by
      unfold HostSync.lastVal
      rw [hcomm, List.getLast?_map]
      cases (L.filter (fun t => t.tag == some n)).getLast? with
      | none => rfl
      | some y => rfl
    rw [hdef, merge_fold_lookup, hlastv]
    obtain ⟨t0, ht0, htag⟩ := List.mem_map.mp hnL
    have hmemf : t0 ∈ L.filter (fun t => t.tag == some n) :=
      List.mem_filter.mpr ⟨ht0, by simp [htag]⟩
    cases hgl : (L.filter (fun t => t.tag == some n)).getLast? with
    | none =>
      rw [List.getLast?_eq_none_iff.mp hgl] at hmemf
      exact absurd hmemf (List.not_mem_nil t0)
    | some y => simp

/-- C4 witness: remote and local both carry tag env; the merged dict has the
    local value. -/
theorem c4_witness :
    HostSync.lookupTag (HostSync.merge_zabbix_and_netbox_tags
      [{ tag := some "env", name := none, value := some "remote" }]
      [{ tag := some "env", name := none, value := some "local" }]) "env" =
      some "local" := by
  have h := c4_tag_merge_law
    [{ tag := some "env", name := none, value := some "remote" }]
    [{ tag := some "env", name := none, value := some "local" }]
    (by
      intro t ht
      simp at ht
      subst ht
      exact ⟨"env", rfl, by decide⟩)
    (by
      intro t ht
      simp at ht
      subst ht
      exact ⟨"env", rfl, by decide⟩)
  rw [h.2.2 "env" (by decide) (by decide)]
  decide
